import Mathlib

/-
Verification development for the 1688 purchase-order import wizard
(odoo_1688_import/wizard/import_1688_orders.py).

The Python module is shallowly embedded below.  Spreadsheet cell payloads
become the inductive type PyValue (None, text, integers, datetimes; a
float-valued cell is represented through its decimal string form, which is
what the wizard sees after _get_cell_value stringifies it).  Host-system
collaborators (product catalog, partner registry, purchase-order creation)
are an explicit Env record of functions, since the wizard only ever calls
search/create on them.  Machine floats of the source are embedded as exact
rationals; the arithmetic of the wizard consists of +, *, / on values read
from the sheet, so the rational semantics is the ideal-arithmetic reading of
the same formulas.  Fallible host calls and the float() conversions return
Except String, mirroring Python exceptions that the wizard catches per
order.
-/

/-- A raw spreadsheet cell payload as delivered by openpyxl.  Booleans and
genuine floats are not modelled; a float-valued cell is represented by the
decimal string it prints as, which is equivalent downstream because
_get_cell_value immediately stringifies every non-datetime value. -/
inductive PyValue where
  | none
  | str (s : String)
  | int (n : Int)
  | datetime (d : Int)
deriving DecidableEq

/-- Result of _get_cell_value: Python False, a datetime passed through
unchanged, or a (stripped) string. -/
inductive CellResult where
  | bfalse
  | rstr (s : String)
  | rdatetime (d : Int)
deriving DecidableEq

/-- Python truthiness of a raw cell payload: None, the empty string and the
number zero are falsy, datetimes are truthy. -/
def pyTruthy : PyValue → Bool
  | .none => false
  | .str s => if s == "" then false else true
  | .int n => if n == 0 then false else true
  | .datetime _ => true

/-- Python str() of a raw cell payload; datetimes are rendered through an
opaque tag (the wizard never stringifies them in _get_cell_value, so the
exact rendering is irrelevant there). -/
def pyStr : PyValue → String
  | .none => "None"
  | .str s => s
  | .int n => toString n
  | .datetime d => "datetime(" ++ toString d ++ ")"

/-- Whitespace characters removed by str.strip (the ASCII ones; the sheets
at hand only contain these). -/
def isSpaceChar (c : Char) : Bool :=
  c == ' ' || c == '\t' || c == '\n' || c == '\r'

/-- Python str.strip: remove leading and trailing whitespace. -/
def pytrim (s : String) : String :=
  String.mk (((s.data.dropWhile isSpaceChar).reverse.dropWhile isSpaceChar).reverse)

/-- _get_cell_value: None yields False; a datetime is passed through; any
other value is stringified and stripped when the RAW value is truthy, and
yields False when the raw value is falsy.  Note that the truthiness test is
on the raw value, not on the stripped string. -/
def get_cell_value (v : PyValue) : CellResult :=
  match v with
  | .none => .bfalse
  | .datetime d => .rdatetime d
  | w => if pyTruthy w then .rstr (pytrim (pyStr w)) else .bfalse

/-- Cell Reader as the specification describes it (for comparison with the
source function): any non-null, non-datetime value is stringified and
stripped, and an empty-after-strip string is normalized to False. -/
def get_cell_value_claimed (v : PyValue) : CellResult :=
  match v with
  | .none => .bfalse
  | .datetime d => .rdatetime d
  | w =>
      if pytrim (pyStr w) == "" then .bfalse else .rstr (pytrim (pyStr w))

/-- Cell Reader as amended: the falsy/empty normalization happens on the raw
value (so the number zero yields False), and a truthy whitespace-only string
yields the empty string rather than False. -/
def get_cell_value_amended (v : PyValue) : CellResult :=
  match v with
  | .none => .bfalse
  | .datetime d => .rdatetime d
  | .str s => if s == "" then .bfalse else .rstr (pytrim s)
  | .int n => if n == 0 then .bfalse else .rstr (pytrim (toString n))

/-- Python truthiness of a _get_cell_value result (False and the empty
string are falsy; datetimes and nonempty strings are truthy). -/
def truthyCell : CellResult → Bool
  | .bfalse => false
  | .rstr s => if s == "" then false else true
  | .rdatetime _ => true

/-- C3: the Cell Reader claim fails on the code.  A whitespace-only string
cell is truthy as a raw value, so the reader returns the empty string after
stripping instead of normalizing it to False; and the raw number zero is
falsy, so the reader returns False instead of the string form of zero. -/
theorem cell_reader_contract_counterexample :
    get_cell_value (PyValue.str " ") = CellResult.rstr "" ∧
    get_cell_value_claimed (PyValue.str " ") = CellResult.bfalse ∧
    CellResult.rstr "" ≠ CellResult.bfalse ∧
    get_cell_value (PyValue.int 0) = CellResult.bfalse ∧
    get_cell_value_claimed (PyValue.int 0) = CellResult.rstr "0" := by
  refine ⟨rfl, rfl, by decide, rfl, rfl⟩

/-- C3 amended: the reader is total (never raises); None yields False, a
datetime is passed through unchanged, a value that is falsy in the host
language (number zero, empty string) yields False, and any other value
yields its stripped string form — possibly the empty string for a
whitespace-only text cell. -/
theorem cell_reader_contract_amended (v : PyValue) :
    get_cell_value v = get_cell_value_amended v := by
  match v with
  | .none => rfl
  | .datetime d => rfl
  | .str s =>
      by_cases h : s == ""
      · simp [get_cell_value, get_cell_value_amended, pyTruthy, pyStr, h]
      · simp [get_cell_value, get_cell_value_amended, pyTruthy, pyStr, h]
  | .int n =>
      by_cases h : n == 0
      · simp [get_cell_value, get_cell_value_amended, pyTruthy, pyStr, h]
      · simp [get_cell_value, get_cell_value_amended, pyTruthy, pyStr, h]

/-- True when every character of the list is a decimal digit. -/
def allDigits : List Char → Bool
  | [] => true
  | c :: cs => c.isDigit && allDigits cs

/-- Decimal digit string to a natural number (left fold with accumulator). -/
def digitsToNat (acc : Nat) : List Char → Nat
  | [] => acc
  | c :: cs => digitsToNat (acc * 10 + (c.toNat - 48)) cs

/-- Split a character list at the first dot, returning the parts before and
after; none when there is no dot. -/
def splitFirstDot : List Char → Option (List Char × List Char)
  | [] => Option.none
  | c :: cs =>
      if c == '.' then some ([], cs)
      else
        match splitFirstDot cs with
        | Option.none => Option.none
        | some (a, b) => some (c :: a, b)

/-- Decimal-literal shape of a float() argument: a sign flag, the integer
part, the fractional digits as a number, and the count of fractional
digits. -/
def pyFloatParts (s : String) : Option (Bool × Nat × Nat × Nat) :=
  let cs := s.data
  let signedTail : Bool × List Char :=
    match cs with
    | c :: rest =>
        if c == '-' then (true, rest)
        else if c == '+' then (false, rest) else (false, cs)
    | [] => (false, cs)
  let body := signedTail.2
  match splitFirstDot body with
  | Option.none =>
      if allDigits body && !body.isEmpty then
        some (signedTail.1, digitsToNat 0 body, 0, 0)
      else Option.none
  | some (a, b) =>
      if allDigits a && allDigits b && !(a.isEmpty && b.isEmpty) then
        some (signedTail.1, digitsToNat 0 a, digitsToNat 0 b, b.length)
      else Option.none

/-- The rational value of a parsed decimal literal. -/
def ratOfParts (t : Bool × Nat × Nat × Nat) : ℚ :=
  (if t.1 then (-1 : ℚ) else 1) *
    ((t.2.1 : ℚ) + (t.2.2.1 : ℚ) / (10 : ℚ) ^ t.2.2.2)

/-- Python float() restricted to plain decimal literals with an optional
sign and an optional fractional part — the shapes produced by stringifying
spreadsheet numbers.  Exotic accepted forms of float() (exponents, inf,
nan, underscores) are not modelled; on them this parser answers none where
float() would succeed, which no claim depends on. -/
def pyFloatString (s : String) : Option ℚ :=
  (pyFloatParts s).map ratOfParts

/-- The conversion pattern float(x) if x else 0.0 applied to a cell-reader
result: a falsy value becomes 0.0; a truthy string is parsed by float(),
raising on malformed text; a datetime makes float() raise a TypeError. -/
def floatIfTruthy : CellResult → Except String ℚ
  | .bfalse => .ok 0
  | .rstr s =>
      if s == "" then .ok 0
      else
        match pyFloatString s with
        | some q => .ok q
        | Option.none => .error ("could not convert string to float: " ++ s)
  | .rdatetime _ =>
      .error "float() argument must be a string or a real number, not datetime"

/-- The inline shipping-allocation formula of _create_purchase_orders
(lines 202-207): when the order has a positive pre-shipping total and a
positive shipping fee, a line receives its proportional share of the fee
folded into the unit price, guarded against a zero quantity; otherwise the
unit price is unchanged. -/
def allocated_price (total_amount shipping_fee unit_price quantity : ℚ) : ℚ :=
  if total_amount > 0 ∧ shipping_fee > 0 then
    unit_price +
      (if quantity > 0 then
        ((unit_price * quantity / total_amount) * shipping_fee) / quantity
      else 0)
  else unit_price

/-- One product line of an order, as assembled by _parse_excel_data from
the fixed line-item columns. -/
structure LineItem where
  product_name : CellResult
  unit_price : CellResult
  quantity : CellResult
  uom : CellResult
  product_code : CellResult
  model : CellResult
  sku_id : CellResult
  odoo_product_ref : CellResult
deriving DecidableEq

/-- One order aggregate, as assembled by _parse_excel_data: the header
fields read from the first row carrying the order number, plus the lines
appended in spreadsheet order. -/
structure OrderAggregate where
  order_no : CellResult
  seller_company : CellResult
  seller_name : CellResult
  total_price : CellResult
  shipping_fee : CellResult
  discount : CellResult
  actual_payment : CellResult
  order_status : CellResult
  create_date : CellResult
  payment_date : CellResult
  tracking_no : CellResult
  logistics_company : CellResult
  buyer_note : CellResult
  lines : List LineItem
deriving DecidableEq

/-- A spreadsheet row, indexed by zero-based column.  openpyxl pads every
row of a sheet to the sheet-wide column count with None-valued cells, so a
total function is the faithful model; the wizard reads columns 0-31 and a
narrower sheet would abort the whole run, which is outside these claims. -/
abbrev Row := Nat → PyValue

/-- Read one cell of a row through the Cell Reader. -/
def cellAt (r : Row) (i : Nat) : CellResult :=
  get_cell_value (r i)

/-- Header-field initialization of a fresh aggregate from the row that
first carries its order number (column indices as in the source). -/
def init_order (order_no : CellResult) (r : Row) : OrderAggregate :=
  { order_no := order_no
    seller_company := cellAt r 3
    seller_name := cellAt r 4
    total_price := cellAt r 5
    shipping_fee := cellAt r 6
    discount := cellAt r 7
    actual_payment := cellAt r 8
    order_status := cellAt r 9
    create_date := cellAt r 10
    payment_date := cellAt r 11
    tracking_no := cellAt r 31
    logistics_company := cellAt r 30
    buyer_note := cellAt r 29
    lines := [] }

/-- Line-item columns of a row (column indices as in the source). -/
def mk_line (r : Row) (product_name : CellResult) : LineItem :=
  { product_name := product_name
    unit_price := cellAt r 19
    quantity := cellAt r 20
    uom := cellAt r 21
    product_code := cellAt r 22
    model := cellAt r 23
    sku_id := cellAt r 25
    odoo_product_ref := cellAt r 26 }

/-- Membership of an order number among the aggregates collected so far
(the keys of the Python dict). -/
def hasKey : List OrderAggregate → CellResult → Bool
  | [], _ => false
  | a :: rest, k => if a.order_no = k then true else hasKey rest k

/-- Append a line to the aggregate carrying the given order number.  The
Python dict has unique keys; on the unique-key lists built by the grouper
this map touches exactly the one matching aggregate. -/
def add_line (orders : List OrderAggregate) (k : CellResult) (li : LineItem) :
    List OrderAggregate :=
  orders.map fun a =>
    if a.order_no = k then { a with lines := a.lines ++ [li] } else a

/-- Grouper loop state: the aggregates in first-seen order (the insertion
order of the Python dict) and the last order number assigned outside the
carry-forward branch. -/
structure GState where
  orders : List OrderAggregate
  last_order_no : CellResult
deriving DecidableEq

/-- One iteration of the row loop of _parse_excel_data: read column 0;
carry the last order number forward when it is blank and some aggregate
already exists; skip the row when the resolved number is still blank;
otherwise create the aggregate on first sight and append a line when the
product-name column is non-blank. -/
def grouper_step (st : GState) (r : Row) : GState :=
  let c := cellAt r 0
  let carry : Bool := !truthyCell c && !st.orders.isEmpty
  let order_no := if carry then st.last_order_no else c
  let last' := if carry then st.last_order_no else c
  if truthyCell order_no then
    let orders1 :=
      if hasKey st.orders order_no then st.orders
      else st.orders ++ [init_order order_no r]
    let pname := cellAt r 18
    let orders2 :=
      if truthyCell pname then add_line orders1 order_no (mk_line r pname)
      else orders1
    { orders := orders2, last_order_no := last' }
  else
    { orders := st.orders, last_order_no := last' }

/-- _parse_excel_data: fold the rows after the header row (row 1 of the
sheet) through the grouper and return the aggregates in first-seen order.
The initial last_order_no is a placeholder: the loop never consults it
while no aggregate exists, and overwrites it before the first aggregate is
created. -/
def parse_excel_data (sheet : List Row) : List OrderAggregate :=
  ((sheet.drop 1).foldl grouper_step
    { orders := [], last_order_no := CellResult.bfalse }).orders

/-- Result shape of _find_product_by_reference: the found flag, the matched
product (its host id) when found, and the reason text otherwise. -/
structure ResolutionResult where
  found : Bool
  productId : Option Nat
  message : String
deriving DecidableEq

/-- Render a cell-reader result the way a Python f-string would. -/
def strOfCell : CellResult → String
  | .bfalse => "False"
  | .rstr s => s
  | .rdatetime d => "datetime(" ++ toString d ++ ")"

/-- Python x or y on cell-reader results: the first operand when truthy,
the second otherwise. -/
def pyOr (a b : CellResult) : CellResult :=
  if truthyCell a then a else b

/-- _find_product_by_reference against a catalog lookup by internal code
(default_code).  A blank reference is rejected outright; otherwise an exact
lookup is performed; no catalog entry is ever created.  A datetime-valued
reference cell is truthy but can match no string-coded product, so the
lookup answers none for it. -/
def find_product_by_reference (catalog : String → Option Nat)
    (l : LineItem) : ResolutionResult :=
  let odoo_ref := l.odoo_product_ref
  if truthyCell odoo_ref then
    match (match odoo_ref with | .rstr s => catalog s | _ => Option.none) with
    | some pid => { found := true, productId := some pid, message := "" }
    | Option.none =>
        { found := false, productId := Option.none
          message := "在Odoo系统中未找到Internal Reference为\"" ++
            strOfCell odoo_ref ++ "\"的产品，请先创建该产品或检查编号" }
  else
    { found := false, productId := Option.none
      message := "Excel中Odoo商品编号(AA列)为空，需要手动关联产品" }

/-- A supplier partner record of the host. -/
structure Partner where
  id : Nat
  name : String
deriving DecidableEq

/-- Values passed to partner creation by _get_or_create_partner. -/
structure PartnerVals where
  name : String
  supplier_rank : Nat
  customer_rank : Nat
  comment : String
deriving DecidableEq

/-- _get_or_create_partner: exact-name lookup among supplier-ranked
partners when the company name is truthy (a non-string truthy name can
match no partner), falling back to creation with company or member name or
a fixed placeholder, and an audit comment.  Creation is a host call and may
raise. -/
def get_or_create_partner (findSupplier : String → Option Partner)
    (createPartner : PartnerVals → Except String Partner)
    (company_name member_name : CellResult) : Except String Partner :=
  let found : Option Partner :=
    if truthyCell company_name then
      match company_name with
      | .rstr s => findSupplier s
      | _ => Option.none
    else Option.none
  match found with
  | some p => .ok p
  | Option.none =>
      createPartner
        { name := strOfCell (pyOr company_name (pyOr member_name (.rstr "未知供应商")))
          supplier_rank := 1
          customer_rank := 0
          comment := "从1688自动导入\n会员名: " ++ strOfCell (pyOr member_name (.rstr "无")) }

/-- _generate_notes: the fixed order-note template; optional fields are
emitted only when truthy. -/
def generate_notes (od : OrderAggregate) : String :=
  let base :=
    "1688订单信息\n" ++ String.mk (List.replicate 50 '=') ++ "\n" ++
    "订单编号: " ++ strOfCell od.order_no ++ "\n" ++
    "卖家会员名: " ++ strOfCell (pyOr od.seller_name (.rstr "无")) ++ "\n" ++
    "订单状态: " ++ strOfCell (pyOr od.order_status (.rstr "无")) ++ "\n"
  let base := base ++
    (if truthyCell od.payment_date then
      "付款时间: " ++ strOfCell od.payment_date ++ "\n" else "")
  let base := base ++
    (if truthyCell od.logistics_company then
      "物流公司: " ++ strOfCell od.logistics_company ++ "\n" else "")
  let base := base ++
    (if truthyCell od.tracking_no then
      "运单号: " ++ strOfCell od.tracking_no ++ "\n" else "")
  let base := base ++
    (if truthyCell od.buyer_note then
      "买家留言: " ++ strOfCell od.buyer_note ++ "\n" else "")
  let base := base ++
    (if truthyCell od.shipping_fee then
      "运费: ¥" ++ strOfCell od.shipping_fee ++ "\n" else "")
  let base := base ++
    (if truthyCell od.discount then
      "折扣: ¥" ++ strOfCell od.discount ++ "\n" else "")
  base ++
    (if truthyCell od.actual_payment then
      "实付款: ¥" ++ strOfCell od.actual_payment ++ "\n" else "")

/-- One purchase-order line creation request (tax configuration is cleared
and the planned date is the current time for every line, so neither is
tracked). -/
structure LineVals where
  product_id : Nat
  name : CellResult
  product_qty : ℚ
  price_unit : ℚ
deriving DecidableEq

/-- One purchase-order creation request. -/
structure POVals where
  partner_id : Nat
  currency_id : Nat
  date_order : Int
  origin : String
  notes : String
  order_line : List LineVals

/-- The host record returned by purchase-order creation. -/
structure CreatedPO where
  id : Nat
  name : String
deriving DecidableEq

/-- The host collaborators the wizard calls: supplier lookup and creation,
product lookup by internal code, purchase-order creation, and the clock
used when the sheet carries no genuine creation datetime.  Creation calls
may raise, which the wizard catches per order. -/
structure Env where
  findSupplier : String → Option Partner
  createPartner : PartnerVals → Except String Partner
  findProduct : String → Option Nat
  createPO : POVals → Except String CreatedPO
  now : Int

/-- A skipped-line report entry. -/
structure SkippedLine where
  product_name : CellResult
  odoo_ref : CellResult
  reason : String
deriving DecidableEq

/-- Per-order outcome recorded into created_orders by
_create_purchase_orders; the four status strings of the source become the
four constructors. -/
inductive Outcome where
  | success (order_no : CellResult) (po_id : Nat) (po_name : String)
      (partner_name : String) (amount_total : ℚ)
  | part (order_no : CellResult) (po_id : Nat) (po_name : String)
      (partner_name : String) (amount_total : ℚ)
      (skipped_lines : List SkippedLine)
  | skipped (order_no : CellResult) (message : String)
      (skipped_lines : List SkippedLine)
  | failed (order_no : CellResult) (message : String)
deriving DecidableEq

/-- The pre-shipping total_amount loop of _create_purchase_orders: sum of
unit_price times quantity over EVERY parsed line of the order, each read
through the float-or-zero conversion (which may raise on malformed text). -/
def order_total_amount (acc : ℚ) : List LineItem → Except String ℚ
  | [] => .ok acc
  | l :: rest => do
      let up ← floatIfTruthy l.unit_price
      let q ← floatIfTruthy l.quantity
      order_total_amount (acc + up * q) rest

/-- The order-line loop of _create_purchase_orders: resolve each line; a
line that fails resolution is recorded as skipped and contributes no
creation request; a resolved line is priced through the shipping
allocation.  Results keep spreadsheet order. -/
def build_order_lines (catalog : String → Option Nat)
    (total_amount shipping_fee : ℚ) :
    List LineItem → Except String (List LineVals × List SkippedLine)
  | [] => .ok ([], [])
  | l :: rest =>
      let res := find_product_by_reference catalog l
      if res.found then do
        let up ← floatIfTruthy l.unit_price
        let q ← floatIfTruthy l.quantity
        let tail ← build_order_lines catalog total_amount shipping_fee rest
        .ok ({ product_id := res.productId.getD 0
               name := l.product_name
               product_qty := q
               price_unit := allocated_price total_amount shipping_fee up q } :: tail.1,
             tail.2)
      else do
        let tail ← build_order_lines catalog total_amount shipping_fee rest
        .ok (tail.1,
             { product_name := l.product_name
               odoo_ref := l.odoo_product_ref
               reason := res.message } :: tail.2)

/-- Host-computed amount_total of a created order: with tax configuration
cleared on every line, the purchase-order total read back by the wizard is
the sum of quantity times unit price over its lines. -/
def sum_lines (ol : List LineVals) : ℚ :=
  (ol.map fun v => v.product_qty * v.price_unit).sum

/-- The body of the per-order try block of _create_purchase_orders for one
aggregate: resolve or create the supplier, convert the shipping fee,
compute the pre-shipping total over every line, build the included and
skipped lines, then either create the order (Success or Partial) or record
the aggregate as Skipped when no line survived. -/
def materialize_order (env : Env) (currency_id : Nat)
    (od : OrderAggregate) : Except String Outcome := do
  let partner ← get_or_create_partner env.findSupplier env.createPartner
    od.seller_company od.seller_name
  let shipping_fee ← floatIfTruthy od.shipping_fee
  let total_amount ← order_total_amount 0 od.lines
  let built ← build_order_lines env.findProduct total_amount shipping_fee od.lines
  let order_line := built.1
  let skipped_lines := built.2
  if order_line.isEmpty then
    .ok (.skipped od.order_no
      ("没有有效的订单行" ++
        (if skipped_lines.isEmpty then ""
         else "，" ++ toString skipped_lines.length ++ "个产品缺少Odoo商品编号"))
      skipped_lines)
  else do
    let po_vals : POVals :=
      { partner_id := partner.id
        currency_id := currency_id
        date_order := (match od.create_date with
          | .rdatetime d => d
          | _ => env.now)
        origin := "1688-" ++ strOfCell od.order_no
        notes := generate_notes od
        order_line := order_line }
    let po ← env.createPO po_vals
    let amount_total := sum_lines order_line
    if skipped_lines.isEmpty then
      .ok (.success od.order_no po.id po.name partner.name amount_total)
    else
      .ok (.part od.order_no po.id po.name partner.name amount_total skipped_lines)

/-- _create_purchase_orders: every aggregate is materialized inside its own
try/except; an exception becomes a Failed outcome carrying the message and
the loop continues with the next aggregate. -/
def create_purchase_orders (env : Env) (currency_id : Nat)
    (orders_data : List OrderAggregate) : List Outcome :=
  orders_data.map fun od =>
    match materialize_order env currency_id od with
    | .ok o => o
    | .error e => .failed od.order_no e

@[simp] theorem exceptBind_ok {α β : Type} (x : α) (f : α → Except String β) :
    (Except.ok x >>= f) = f x := rfl

@[simp] theorem exceptBind_err {α β : Type} (e : String) (f : α → Except String β) :
    ((Except.error e : Except String α) >>= f) = Except.error e := rfl

/-- The float-or-zero conversions of one line succeeded with the given
unit price and quantity. -/
def floatRel (l : LineItem) (p : ℚ × ℚ) : Prop :=
  floatIfTruthy l.unit_price = .ok p.1 ∧ floatIfTruthy l.quantity = .ok p.2

/-- Pre-shipping subtotal of a list of (unit price, quantity) pairs. -/
def sumPairs (ps : List (ℚ × ℚ)) : ℚ :=
  (ps.map fun p => p.1 * p.2).sum

/-- The order lines the loop of _create_purchase_orders emits, described
over lines paired with their converted numbers. -/
def includedVals (catalog : String → Option Nat) (T S : ℚ)
    (lps : List (LineItem × ℚ × ℚ)) : List LineVals :=
  (lps.filter fun lp => (find_product_by_reference catalog lp.1).found).map
    fun lp =>
      { product_id := (find_product_by_reference catalog lp.1).productId.getD 0
        name := lp.1.product_name
        product_qty := lp.2.2
        price_unit := allocated_price T S lp.2.1 lp.2.2 }

/-- The skipped-line entries the loop of _create_purchase_orders records. -/
def skippedEntries (catalog : String → Option Nat)
    (ls : List LineItem) : List SkippedLine :=
  (ls.filter fun l => !(find_product_by_reference catalog l).found).map
    fun l =>
      { product_name := l.product_name
        odoo_ref := l.odoo_product_ref
        reason := (find_product_by_reference catalog l).message }

/-- Pre-shipping subtotal of the lines that survive resolution. -/
def inclSum (catalog : String → Option Nat)
    (lps : List (LineItem × ℚ × ℚ)) : ℚ :=
  ((lps.filter fun lp => (find_product_by_reference catalog lp.1).found).map
    fun lp => lp.2.1 * lp.2.2).sum

/-- An aggregate with its lines dropped: what remains is exactly the header
fields read from the first row of the order. -/
def eraseLines (a : OrderAggregate) : OrderAggregate :=
  { a with lines := [] }

/-- C8: the allocation identity guards of the shipping allocator.  When the
shipping fee is zero, or the pre-shipping order total is zero, or the line
quantity is zero, the allocated unit price is the original unit price
unchanged; the division by the quantity sits under an explicit positivity
guard, so a zero quantity never reaches it (and in the zero-total or
zero-fee case the allocation branch is not entered at all). -/
theorem allocation_identity_guards (total_amount shipping_fee unit_price quantity : ℚ)
    (h : shipping_fee = 0 ∨ total_amount = 0 ∨ quantity = 0) :
    allocated_price total_amount shipping_fee unit_price quantity = unit_price := by
  rcases h with h | h | h
  · simp [allocated_price, h]
  · simp [allocated_price, h]
  · simp [allocated_price, h]

/-- C8 witness: the guards at concrete inputs; a zero quantity under a
positive fee and total falls back to the plain unit price. -/
theorem allocation_identity_guards_witness :
    allocated_price 40 4 10 0 = 10 ∧ allocated_price 40 0 10 2 = 10 ∧
    allocated_price 0 4 10 2 = 10 :=
  ⟨allocation_identity_guards 40 4 10 0 (Or.inr (Or.inr rfl)),
   allocation_identity_guards 40 0 10 2 (Or.inl rfl),
   allocation_identity_guards 0 4 10 2 (Or.inr (Or.inl rfl))⟩

/-- C6: per-order failure isolation.  If materializing one aggregate
raises, the loop of _create_purchase_orders records a Failed outcome
carrying exactly the raised message at the position of that aggregate, and
every aggregate before and after it yields its own outcome unchanged. -/
theorem per_order_failure_isolation (env : Env) (currency_id : Nat)
    (od : OrderAggregate) (pre post : List OrderAggregate) (e : String)
    (he : materialize_order env currency_id od = .error e) :
    create_purchase_orders env currency_id (pre ++ od :: post) =
      create_purchase_orders env currency_id pre ++
        Outcome.failed od.order_no e ::
          create_purchase_orders env currency_id post := by
  simp [create_purchase_orders, he]

theorem add_line_map_order_no (os : List OrderAggregate) (k : CellResult)
    (li : LineItem) :
    (add_line os k li).map (fun a => a.order_no) =
      os.map (fun a => a.order_no) := by
  induction os with
  | nil => rfl
  | cons a rest ih =>
      by_cases h : a.order_no = k
      · simp [add_line, h] at ih ⊢
        exact ih
      · simp [add_line, h] at ih ⊢
        exact ih

theorem hasKey_false_not_mem (os : List OrderAggregate) (k : CellResult)
    (h : hasKey os k = false) : k ∉ os.map (fun a => a.order_no) := by
  induction os with
  | nil => simp
  | cons a rest ih =>
      by_cases ha : a.order_no = k
      · simp [hasKey, ha] at h
      · simp [hasKey, ha] at h
        simp [ha, ih h]
        intro hc
        exact ha hc.symm

/-- One grouper step either keeps the key sequence or appends one truthy,
previously unseen key to it. -/
theorem grouper_step_keys (st : GState) (r : Row) :
    ((grouper_step st r).orders.map fun a => a.order_no) =
        (st.orders.map fun a => a.order_no) ∨
      ∃ k, truthyCell k = true ∧ hasKey st.orders k = false ∧
        ((grouper_step st r).orders.map fun a => a.order_no) =
          (st.orders.map fun a => a.order_no) ++ [k] := by
  simp only [grouper_step]
  split
  next hcarry =>
    split
    next h1 =>
      split
      next h3 =>
        split
        next h2 => left; simp [add_line_map_order_no]
        next h2 =>
          right
          refine ⟨st.last_order_no, h1, by simpa using h2, ?_⟩
          simp [add_line_map_order_no, init_order]
      next h3 =>
        split
        next h2 => left; rfl
        next h2 =>
          right
          refine ⟨st.last_order_no, h1, by simpa using h2, ?_⟩
          simp [init_order]
    next h1 => left; rfl
  next hcarry =>
    split
    next h1 =>
      split
      next h3 =>
        split
        next h2 => left; simp [add_line_map_order_no]
        next h2 =>
          right
          refine ⟨cellAt r 0, h1, by simpa using h2, ?_⟩
          simp [add_line_map_order_no, init_order]
      next h3 =>
        split
        next h2 => left; rfl
        next h2 =>
          right
          refine ⟨cellAt r 0, h1, by simpa using h2, ?_⟩
          simp [init_order]
    next h1 => left; rfl

/-- Folding rows preserves any invariant that every grouper step
preserves. -/
theorem grouper_foldl_inv (P : GState → Prop)
    (hstep : ∀ st r, P st → P (grouper_step st r)) :
    ∀ (rows : List Row) (st : GState), P st → P (rows.foldl grouper_step st) := by
  intro rows
  induction rows with
  | nil => intro st h; exact h
  | cons r rest ih => intro st h; exact ih _ (hstep st r h)

/-- A grouper step from a state with no aggregates does not consult the
carried order number. -/
theorem grouper_step_empty_indep (l1 l2 : CellResult) (r : Row) :
    grouper_step { orders := [], last_order_no := l1 } r =
      grouper_step { orders := [], last_order_no := l2 } r := by
  simp [grouper_step]

theorem grouper_foldl_empty_indep (rows : List Row) (l1 l2 : CellResult) :
    (rows.foldl grouper_step { orders := [], last_order_no := l1 }).orders =
      (rows.foldl grouper_step { orders := [], last_order_no := l2 }).orders := by
  cases rows with
  | nil => rfl
  | cons r rest =>
      simp only [List.foldl_cons]
      rw [grouper_step_empty_indep l1 l2 r]

/-- C7: the Order Grouper never emits an aggregate with a blank order
number, and a continuation row (blank column 0) arriving while no
aggregate exists yet is dropped without contributing an aggregate or a
line — parsing the sheet with that row is parsing the sheet without it. -/
theorem grouper_order_no_never_blank :
    (∀ sheet : List Row, ∀ a ∈ parse_excel_data sheet,
        truthyCell a.order_no = true) ∧
    (∀ (hdr r : Row) (rows : List Row), truthyCell (cellAt r 0) = false →
        parse_excel_data (hdr :: r :: rows) = parse_excel_data (hdr :: rows)) := by
  constructor
  · intro sheet a ha
    have key : ∀ st : GState,
        (∀ x ∈ st.orders.map (fun b => b.order_no), truthyCell x = true) →
        ∀ x ∈ ((sheet.drop 1).foldl grouper_step st).orders.map
            (fun b => b.order_no), truthyCell x = true := by
      intro st hst
      refine grouper_foldl_inv
        (fun st => ∀ x ∈ st.orders.map (fun b => b.order_no),
          truthyCell x = true) ?_ (sheet.drop 1) st hst
      intro st' r hst' x hx
      rcases grouper_step_keys st' r with hk | ⟨k, hkt, _, hk⟩
      · rw [hk] at hx
        exact hst' x hx
      · rw [hk] at hx
        rcases List.mem_append.mp hx with hx | hx
        · exact hst' x hx
        · rcases List.mem_singleton.mp hx with rfl
          exact hkt
    have := key { orders := [], last_order_no := CellResult.bfalse }
      (by simp) a.order_no (List.mem_map_of_mem _ ha)
    exact this
  · intro hdr r rows hblank
    unfold parse_excel_data
    simp only [List.drop_one, List.tail_cons, List.foldl_cons]
    have hstep : grouper_step { orders := [], last_order_no := CellResult.bfalse } r =
        { orders := [], last_order_no := cellAt r 0 } := by
      simp [grouper_step, hblank]
    rw [hstep]
    exact grouper_foldl_empty_indep rows (cellAt r 0) CellResult.bfalse

/-- C7 witness: on a concrete sheet whose first data row has a blank order
number, every produced aggregate has a truthy order number and the blank
leading row is inert. -/
theorem grouper_order_no_never_blank_witness :
    (∀ a ∈ parse_excel_data
        [fun _ => PyValue.none,
         fun i => if i == 0 then PyValue.none else PyValue.str "x",
         fun i => if i == 0 then PyValue.str "A1" else PyValue.none],
      truthyCell a.order_no = true) ∧
    parse_excel_data
        [fun _ => PyValue.none,
         fun i => if i == 0 then PyValue.none else PyValue.str "x",
         fun i => if i == 0 then PyValue.str "A1" else PyValue.none] =
      parse_excel_data
        [fun _ => PyValue.none,
         fun i => if i == 0 then PyValue.str "A1" else PyValue.none] :=
  ⟨fun a ha => grouper_order_no_never_blank.1 _ a ha,
   grouper_order_no_never_blank.2 (fun _ => PyValue.none)
     (fun i => if i == 0 then PyValue.none else PyValue.str "x")
     [fun i => if i == 0 then PyValue.str "A1" else PyValue.none] (by decide)⟩

theorem add_line_map_eraseLines (os : List OrderAggregate) (k : CellResult)
    (li : LineItem) :
    (add_line os k li).map eraseLines = os.map eraseLines := by
  induction os with
  | nil => rfl
  | cons a rest ih =>
      by_cases h : a.order_no = k
      · simp [add_line, eraseLines, h] at ih ⊢
        exact ih
      · simp [add_line, eraseLines, h] at ih ⊢
        exact ih

/-- C10: grouping is keyed purely by the order number.  Every run of the
grouper yields aggregates with pairwise distinct order numbers, so all rows
bearing one non-blank order number — contiguous or not — land in a single
aggregate; and a row whose order number already has an aggregate only ever
appends a line to the existing aggregates (when its product name is
non-blank), leaving every header field of every aggregate untouched, so
differing header values on later rows are silently ignored. -/
theorem grouping_keyed_by_order_number :
    (∀ sheet : List Row,
        ((parse_excel_data sheet).map fun a => a.order_no).Nodup) ∧
    (∀ (st : GState) (r : Row), truthyCell (cellAt r 0) = true →
        hasKey st.orders (cellAt r 0) = true →
        (grouper_step st r).orders =
          (if truthyCell (cellAt r 18) = true then
            add_line st.orders (cellAt r 0) (mk_line r (cellAt r 18))
          else st.orders) ∧
        (grouper_step st r).orders.map eraseLines =
          st.orders.map eraseLines) := by
  constructor
  · intro sheet
    have key := grouper_foldl_inv
      (fun st => (st.orders.map fun a => a.order_no).Nodup) ?_ (sheet.drop 1)
      { orders := [], last_order_no := CellResult.bfalse } (by simp)
    · exact key
    · intro st r hst
      rcases grouper_step_keys st r with hk | ⟨k, _, hfresh, hk⟩
      · rw [hk]; exact hst
      · rw [hk]
        rw [List.nodup_append]
        refine ⟨hst, List.nodup_singleton k, ?_⟩
        intro x hx hxk
        rcases List.mem_singleton.mp hxk with rfl
        exact hasKey_false_not_mem st.orders x hfresh hx
  · intro st r ht hk
    have hcarry : (!truthyCell (cellAt r 0) && !st.orders.isEmpty) = false := by
      rw [ht]; rfl
    constructor
    · simp [grouper_step, hcarry, ht, hk]
    · by_cases h3 : truthyCell (cellAt r 18) = true
      · simp [grouper_step, hcarry, ht, hk, h3, add_line_map_eraseLines]
      · simp [grouper_step, hcarry, ht, hk, h3]

/-- C10 witness: a second row bearing the already-seen order number A1 and
a fresh product appends one line to the existing aggregate and leaves its
header fields unchanged; and a sheet in which A1 rows sandwich a B1 row
still yields pairwise distinct aggregate keys. -/
theorem grouping_keyed_by_order_number_witness :
    ((parse_excel_data
        [fun _ => PyValue.none,
         fun i => if i == 0 then PyValue.str "A1" else PyValue.none,
         fun i => if i == 0 then PyValue.str "B1" else PyValue.none,
         fun i => if i == 0 then PyValue.str "A1" else PyValue.none]).map
      fun a => a.order_no).Nodup ∧
    ((grouper_step
        { orders := [init_order (CellResult.rstr "A1") (fun _ => PyValue.none)]
          last_order_no := CellResult.rstr "A1" }
        (fun i => if i == 0 then PyValue.str "A1" else
          if i == 18 then PyValue.str "Widget" else PyValue.none)).orders =
      (if truthyCell (cellAt (fun i => if i == 0 then PyValue.str "A1" else
          if i == 18 then PyValue.str "Widget" else PyValue.none) 18) = true then
        add_line [init_order (CellResult.rstr "A1") (fun _ => PyValue.none)]
          (cellAt (fun i => if i == 0 then PyValue.str "A1" else
            if i == 18 then PyValue.str "Widget" else PyValue.none) 0)
          (mk_line (fun i => if i == 0 then PyValue.str "A1" else
            if i == 18 then PyValue.str "Widget" else PyValue.none)
            (cellAt (fun i => if i == 0 then PyValue.str "A1" else
              if i == 18 then PyValue.str "Widget" else PyValue.none) 18))
      else [init_order (CellResult.rstr "A1") (fun _ => PyValue.none)]) ∧
      (grouper_step
        { orders := [init_order (CellResult.rstr "A1") (fun _ => PyValue.none)]
          last_order_no := CellResult.rstr "A1" }
        (fun i => if i == 0 then PyValue.str "A1" else
          if i == 18 then PyValue.str "Widget" else PyValue.none)).orders.map
          eraseLines =
        [init_order (CellResult.rstr "A1") (fun _ => PyValue.none)].map
          eraseLines) :=
  ⟨grouping_keyed_by_order_number.1 _,
   grouping_keyed_by_order_number.2
     { orders := [init_order (CellResult.rstr "A1") (fun _ => PyValue.none)]
       last_order_no := CellResult.rstr "A1" }
     (fun i => if i == 0 then PyValue.str "A1" else
       if i == 18 then PyValue.str "Widget" else PyValue.none)
     (by decide) (by decide)⟩

theorem order_total_amount_eq {lines : List LineItem} {ps : List (ℚ × ℚ)}
    (h : List.Forall₂ floatRel lines ps) :
    ∀ a : ℚ, order_total_amount a lines = .ok (a + sumPairs ps) := by
  induction h with
  | nil => intro a; simp [order_total_amount, sumPairs]
  | cons h1 h2 ih =>
      rename_i l p ls ps'
      intro a
      simp only [order_total_amount, h1.1, h1.2, exceptBind_ok]
      rw [ih (a + p.1 * p.2)]
      congr 1
      simp [sumPairs]
      ring

theorem build_eq_of_floats (catalog : String → Option Nat) (T S : ℚ)
    {lines : List LineItem} {ps : List (ℚ × ℚ)}
    (h : List.Forall₂ floatRel lines ps) :
    build_order_lines catalog T S lines =
      .ok (includedVals catalog T S (lines.zip ps),
           skippedEntries catalog lines) := by
  induction h with
  | nil => simp [build_order_lines, includedVals, skippedEntries]
  | cons h1 h2 ih =>
      rename_i l p ls ps'
      by_cases hf : (find_product_by_reference catalog l).found = true
      · simp only [build_order_lines, hf, if_true, h1.1, h1.2, exceptBind_ok, ih]
        simp [includedVals, skippedEntries, List.filter_cons, hf]
      · have hf' : (find_product_by_reference catalog l).found = false := by
          simpa using hf
        simp only [build_order_lines, hf', Bool.false_eq_true, if_false,
          exceptBind_ok, ih]
        simp [includedVals, skippedEntries, List.filter_cons, hf']

theorem build_ok_char (catalog : String → Option Nat) (T S : ℚ) :
    ∀ (lines : List LineItem) (ol : List LineVals) (sk : List SkippedLine),
      build_order_lines catalog T S lines = .ok (ol, sk) →
      ol.map (fun v => v.name) =
        ((lines.filter fun l =>
          (find_product_by_reference catalog l).found).map
            fun l => l.product_name) ∧
      sk = skippedEntries catalog lines := by
  intro lines
  induction lines with
  | nil =>
      intro ol sk hb
      simp only [build_order_lines, Except.ok.injEq, Prod.mk.injEq] at hb
      obtain ⟨h1, h2⟩ := hb
      subst h1
      subst h2
      simp [skippedEntries]
  | cons l rest ih =>
      intro ol sk hb
      by_cases hf : (find_product_by_reference catalog l).found = true
      · simp only [build_order_lines, hf, if_true] at hb
        cases hup : floatIfTruthy l.unit_price with
        | error e => rw [hup] at hb; simp at hb
        | ok up =>
          rw [hup] at hb
          simp only [exceptBind_ok] at hb
          cases hq : floatIfTruthy l.quantity with
          | error e => rw [hq] at hb; simp at hb
          | ok q =>
            rw [hq] at hb
            simp only [exceptBind_ok] at hb
            cases hrest : build_order_lines catalog T S rest with
            | error e => rw [hrest] at hb; simp at hb
            | ok tail =>
              rw [hrest] at hb
              simp only [exceptBind_ok, Except.ok.injEq, Prod.mk.injEq] at hb
              obtain ⟨h1, h2⟩ := hb
              subst h1
              subst h2
              have ihc := ih tail.1 tail.2 hrest
              constructor
              · simp [List.filter_cons, hf, ihc.1]
              · rw [ihc.2]
                simp [skippedEntries, List.filter_cons, hf]
      · have hf' : (find_product_by_reference catalog l).found = false := by
          simpa using hf
        simp only [build_order_lines, hf', Bool.false_eq_true, if_false] at hb
        cases hrest : build_order_lines catalog T S rest with
        | error e => rw [hrest] at hb; simp at hb
        | ok tail =>
          rw [hrest] at hb
          simp only [exceptBind_ok, Except.ok.injEq, Prod.mk.injEq] at hb
          obtain ⟨h1, h2⟩ := hb
          subst h1
          subst h2
          have ihc := ih tail.1 tail.2 hrest
          constructor
          · simp [List.filter_cons, hf', ihc.1]
          · rw [ihc.2]
            simp [skippedEntries, List.filter_cons, hf']

theorem alloc_mul {T S up q : ℚ} (hT : 0 < T) (hS : 0 < S) (hq : 0 ≤ q) :
    q * allocated_price T S up q = up * q + S * (up * q) / T := by
  rcases eq_or_lt_of_le hq with h0 | hpos
  · rw [← h0]
    simp
  · have hT' : T ≠ 0 := ne_of_gt hT
    have hq' : q ≠ 0 := ne_of_gt hpos
    unfold allocated_price
    rw [if_pos ⟨hT, hS⟩, if_pos hpos]
    field_simp
    ring

theorem sum_includedVals (catalog : String → Option Nat) {T S : ℚ}
    (hT : 0 < T) (hS : 0 < S) :
    ∀ lps : List (LineItem × ℚ × ℚ), (∀ lp ∈ lps, 0 ≤ lp.2.2) →
      sum_lines (includedVals catalog T S lps) =
        inclSum catalog lps + S * inclSum catalog lps / T := by
  intro lps
  induction lps with
  | nil => intro _; simp [sum_lines, includedVals, inclSum]
  | cons lp rest ih =>
      intro hq
      have hrest := ih (fun x hx => hq x (List.mem_cons_of_mem _ hx))
      have hq0 : 0 ≤ lp.2.2 := hq lp (List.mem_cons_self _ _)
      by_cases hf : (find_product_by_reference catalog lp.1).found = true
      · simp only [includedVals, inclSum, List.filter_cons, hf, if_true,
          List.map_cons, sum_lines, List.sum_cons] at hrest ⊢
        rw [alloc_mul hT hS hq0]
        rw [hrest]
        ring
      · have hf' : (find_product_by_reference catalog lp.1).found = false := by
          simpa using hf
        simp only [includedVals, inclSum, List.filter_cons, hf',
          Bool.false_eq_true, if_false] at hrest ⊢
        exact hrest

/-- C1: shipping-fee conservation.  For an order whose shipping fee
converts to S > 0, whose lines all convert (unit price and quantity), all
have positive quantity and all resolve against the catalog, and whose
pre-shipping total is positive, the materializer creates the order with
every line priced through the allocation, and the created total equals the
pre-shipping total plus the shipping fee exactly — that is, the allocated
prices satisfy the conservation identity Σ (allocated - original)·qty = S. -/
theorem shipping_fee_conservation (env : Env) (currency_id : Nat)
    (od : OrderAggregate) (ps : List (ℚ × ℚ)) (S : ℚ) (p : Partner)
    (po : CreatedPO)
    (hp : get_or_create_partner env.findSupplier env.createPartner
        od.seller_company od.seller_name = .ok p)
    (hs : floatIfTruthy od.shipping_fee = .ok S)
    (hS : 0 < S)
    (hfa : List.Forall₂ (fun l pr => floatRel l pr ∧ 0 < pr.2 ∧
        (find_product_by_reference env.findProduct l).found = true) od.lines ps)
    (hT : 0 < sumPairs ps)
    (hpo : ∀ v, env.createPO v = .ok po) :
    materialize_order env currency_id od =
      .ok (.success od.order_no po.id po.name p.name (sumPairs ps + S)) := by
  have hfl : List.Forall₂ floatRel od.lines ps :=
    hfa.imp (fun _ _ h => h.1)
  have hlen : od.lines.length = ps.length := hfa.length_eq
  have hzip : ∀ lp ∈ od.lines.zip ps, floatRel lp.1 lp.2 ∧ 0 < lp.2.2 ∧
      (find_product_by_reference env.findProduct lp.1).found = true := by
    intro lp hlp
    exact (List.forall₂_iff_zip.mp hfa).2 hlp
  have hfound : ∀ l ∈ od.lines,
      (find_product_by_reference env.findProduct l).found = true := by
    intro l hl
    have hmap : od.lines = (od.lines.zip ps).map Prod.fst :=
      (List.map_fst_zip od.lines ps (le_of_eq hlen)).symm
    rw [hmap] at hl
    obtain ⟨lp, hlp, rfl⟩ := List.mem_map.mp hl
    exact (hzip lp hlp).2.2
  have hskip : skippedEntries env.findProduct od.lines = [] := by
    have hfilter : (od.lines.filter fun l =>
        !(find_product_by_reference env.findProduct l).found) = [] := by
      rw [List.filter_eq_nil_iff]
      intro a ha
      simp [hfound a ha]
    simp [skippedEntries, hfilter]
  have hincl_filter : ((od.lines.zip ps).filter fun lp =>
      (find_product_by_reference env.findProduct lp.1).found) =
        od.lines.zip ps := by
    rw [List.filter_eq_self]
    intro lp hlp
    have hmem : lp.1 ∈ od.lines := by
      have hm := List.map_fst_zip od.lines ps (le_of_eq hlen)
      rw [← hm]
      exact List.mem_map_of_mem Prod.fst hlp
    exact hfound lp.1 hmem
  have hinclSum : inclSum env.findProduct (od.lines.zip ps) = sumPairs ps := by
    have hm2 : ((od.lines.zip ps).map Prod.snd) = ps :=
      List.map_snd_zip od.lines ps (le_of_eq hlen.symm)
    have hmapped : ((od.lines.zip ps).map fun lp => lp.2.1 * lp.2.2) =
        ps.map fun pr => pr.1 * pr.2 := by
      have hcomp : ((od.lines.zip ps).map fun lp => lp.2.1 * lp.2.2) =
          ((od.lines.zip ps).map Prod.snd).map (fun pr => pr.1 * pr.2) :=
        (List.map_map (fun pr : ℚ × ℚ => pr.1 * pr.2) Prod.snd
          (od.lines.zip ps)).symm
      rw [hcomp, hm2]
    simp only [inclSum, hincl_filter, hmapped, sumPairs]
  have htot : order_total_amount 0 od.lines = .ok (sumPairs ps) := by
    rw [order_total_amount_eq hfl 0, zero_add]
  have hbuild : build_order_lines env.findProduct (sumPairs ps) S od.lines =
      .ok (includedVals env.findProduct (sumPairs ps) S (od.lines.zip ps), []) := by
    rw [build_eq_of_floats env.findProduct (sumPairs ps) S hfl, hskip]
  have hps : ps ≠ [] := by
    intro h
    rw [h] at hT
    simp [sumPairs] at hT
  have hlenincl : (includedVals env.findProduct (sumPairs ps) S
      (od.lines.zip ps)).length = ps.length := by
    simp [includedVals, hincl_filter, List.length_zip, hlen]
  have hempty : (includedVals env.findProduct (sumPairs ps) S
      (od.lines.zip ps)).isEmpty = false := by
    cases hI : includedVals env.findProduct (sumPairs ps) S (od.lines.zip ps) with
    | nil =>
        rw [hI] at hlenincl
        exact absurd (List.length_eq_zero.mp hlenincl.symm) hps
    | cons a as => rfl
  have hq0 : ∀ lp ∈ od.lines.zip ps, 0 ≤ lp.2.2 :=
    fun lp hlp => le_of_lt (hzip lp hlp).2.1
  have hsum : sum_lines (includedVals env.findProduct (sumPairs ps) S
      (od.lines.zip ps)) = sumPairs ps + S := by
    rw [sum_includedVals env.findProduct hT hS _ hq0, hinclSum,
      mul_div_assoc, div_self (ne_of_gt hT), mul_one]
  simp only [materialize_order, hp, exceptBind_ok, hs, htot, hbuild, hempty,
    Bool.false_eq_true, if_false, hpo, List.isEmpty_nil, if_true, hsum]

theorem floatIfTruthy_int_str {s : String} {n : Nat}
    (h : pyFloatParts s = some (false, n, 0, 0)) (hs : (s == "") = false) :
    floatIfTruthy (CellResult.rstr s) = .ok (n : ℚ) := by
  simp [floatIfTruthy, hs, pyFloatString, h, ratOfParts]

theorem floatIfTruthy_neg_int_str {s : String} {n : Nat}
    (h : pyFloatParts s = some (true, n, 0, 0)) (hs : (s == "") = false) :
    floatIfTruthy (CellResult.rstr s) = .ok (-(n : ℚ)) := by
  simp [floatIfTruthy, hs, pyFloatString, h, ratOfParts]

/-- C4: strict skip-and-report.  The resolver answers NotFound with its
reason both for a blank reference and for a reference matching no catalog
entry (it is a pure lookup: it never raises and never creates a catalog
entry); and for any successfully built order, the emitted lines are exactly
the resolved lines in order, while the skipped report carries exactly the
unresolved lines, each with its product name and the recorded reason. -/
theorem strict_resolution_skip_and_report (catalog : String → Option Nat)
    (T S : ℚ) (lines : List LineItem) (ol : List LineVals)
    (sk : List SkippedLine)
    (hb : build_order_lines catalog T S lines = .ok (ol, sk)) :
    (∀ l : LineItem, truthyCell l.odoo_product_ref = false →
        find_product_by_reference catalog l =
          { found := false, productId := Option.none
            message := "Excel中Odoo商品编号(AA列)为空，需要手动关联产品" }) ∧
    (∀ (l : LineItem) (s : String), l.odoo_product_ref = CellResult.rstr s →
        (s == "") = false → catalog s = Option.none →
        find_product_by_reference catalog l =
          { found := false, productId := Option.none
            message := "在Odoo系统中未找到Internal Reference为\"" ++ s ++
              "\"的产品，请先创建该产品或检查编号" }) ∧
    ol.map (fun v => v.name) =
      ((lines.filter fun l =>
        (find_product_by_reference catalog l).found).map
          fun l => l.product_name) ∧
    sk = skippedEntries catalog lines := by
  have hchar := build_ok_char catalog T S lines ol sk hb
  refine ⟨?_, ?_, hchar.1, hchar.2⟩
  · intro l hblank
    simp [find_product_by_reference, hblank]
  · intro l s hs hne hcat
    simp [find_product_by_reference, hs, truthyCell, hne, hcat, strOfCell]

/-- C9 amended: the proration denominator is the pre-shipping total over
every parsed line, included or skipped; for a built order the created-line
total exceeds the included subtotal by exactly S · (included subtotal) / T,
and this added shipping is strictly below S whenever the included subtotal
is strictly below T (equivalently: the skipped lines carry positive net
subtotal; a negative-priced skipped line can push the added shipping above
S, which corrects the unconditional inequality of the claim). -/
theorem shipping_prorated_over_all_parsed_lines (catalog : String → Option Nat)
    (S T : ℚ) (lines : List LineItem) (ps : List (ℚ × ℚ))
    (ol : List LineVals) (sk : List SkippedLine)
    (hfa : List.Forall₂ (fun l pr => floatRel l pr ∧ 0 ≤ pr.2) lines ps)
    (hT : T = sumPairs ps) (hT0 : 0 < T) (hS : 0 < S)
    (hb : build_order_lines catalog T S lines = .ok (ol, sk)) :
    order_total_amount 0 lines = .ok T ∧
    sum_lines ol =
      inclSum catalog (lines.zip ps) + S * inclSum catalog (lines.zip ps) / T ∧
    (inclSum catalog (lines.zip ps) < T →
      sum_lines ol - inclSum catalog (lines.zip ps) < S) := by
  have hfl : List.Forall₂ floatRel lines ps := hfa.imp (fun _ _ h => h.1)
  have htot : order_total_amount 0 lines = .ok T := by
    rw [order_total_amount_eq hfl 0, zero_add, hT]
  have hzip : ∀ lp ∈ lines.zip ps, 0 ≤ lp.2.2 := by
    intro lp hlp
    exact ((List.forall₂_iff_zip.mp hfa).2 hlp).2
  have hbuild := build_eq_of_floats catalog T S hfl
  rw [hb] at hbuild
  have hol : ol = includedVals catalog T S (lines.zip ps) := by
    simp only [Except.ok.injEq, Prod.mk.injEq] at hbuild
    exact hbuild.1
  refine ⟨htot, ?_, ?_⟩
  · rw [hol, sum_includedVals catalog hT0 hS _ hzip]
  · intro hlt
    rw [hol, sum_includedVals catalog hT0 hS _ hzip]
    have hdiv : S * inclSum catalog (lines.zip ps) / T < S := by
      rw [div_lt_iff₀ hT0]
      exact mul_lt_mul_of_pos_left hlt hS
    linarith

/-- C5: an aggregate in which zero lines survive resolution (in particular
one with no lines at all) is classified Skipped — never Success or Partial
— and no order-creation request is issued: the outcome is the same for
every possible host create function, which the materializer therefore never
consulted.  Within a run the aggregate still contributes exactly one
outcome, in place, to the report sequence. -/
theorem skipped_order_no_creation (env : Env) (currency_id : Nat)
    (od : OrderAggregate) (p : Partner) (S T : ℚ) (sk : List SkippedLine)
    (pre post : List OrderAggregate)
    (hp : get_or_create_partner env.findSupplier env.createPartner
        od.seller_company od.seller_name = .ok p)
    (hs : floatIfTruthy od.shipping_fee = .ok S)
    (ht : order_total_amount 0 od.lines = .ok T)
    (hb : build_order_lines env.findProduct T S od.lines = .ok ([], sk)) :
    (∀ f : POVals → Except String CreatedPO,
        materialize_order { env with createPO := f } currency_id od =
          .ok (.skipped od.order_no
            ("没有有效的订单行" ++
              (if sk.isEmpty then ""
               else "，" ++ toString sk.length ++ "个产品缺少Odoo商品编号")) sk)) ∧
    create_purchase_orders env currency_id (pre ++ od :: post) =
      create_purchase_orders env currency_id pre ++
        Outcome.skipped od.order_no
          ("没有有效的订单行" ++
            (if sk.isEmpty then ""
             else "，" ++ toString sk.length ++ "个产品缺少Odoo商品编号")) sk ::
          create_purchase_orders env currency_id post := by
  have hone : ∀ f : POVals → Except String CreatedPO,
      materialize_order { env with createPO := f } currency_id od =
        .ok (.skipped od.order_no
          ("没有有效的订单行" ++
            (if sk.isEmpty then ""
             else "，" ++ toString sk.length ++ "个产品缺少Odoo商品编号")) sk) := by
    intro f
    have hp' : get_or_create_partner
        ({ env with createPO := f } : Env).findSupplier
        ({ env with createPO := f } : Env).createPartner
        od.seller_company od.seller_name = .ok p := hp
    have hb' : build_order_lines ({ env with createPO := f } : Env).findProduct
        T S od.lines = .ok ([], sk) := hb
    simp only [materialize_order, hp', exceptBind_ok, hs, ht, hb',
      List.isEmpty_nil, if_true]
  refine ⟨hone, ?_⟩
  have hod : materialize_order env currency_id od =
      .ok (.skipped od.order_no
        ("没有有效的订单行" ++
          (if sk.isEmpty then ""
           else "，" ++ toString sk.length ++ "个产品缺少Odoo商品编号")) sk) :=
    hone env.createPO
  simp only [create_purchase_orders, List.map_append, List.map_cons, hod]

/-- Header row of the worked example. -/
def rowHeader : Row := fun _ => PyValue.none

/-- Row A of the worked example: order O1, seller, totals, Widget line. -/
def rowA : Row := fun i =>
  match i with
  | 0 => PyValue.str "O1"
  | 3 => PyValue.str "SellerCo"
  | 4 => PyValue.str "Seller"
  | 5 => PyValue.str "40"
  | 6 => PyValue.str "4"
  | 18 => PyValue.str "Widget"
  | 19 => PyValue.str "10"
  | 20 => PyValue.str "2"
  | 26 => PyValue.str "W1"
  | _ => PyValue.none

/-- Row B of the worked example: blank order number continuing O1, Gadget
line. -/
def rowB : Row := fun i =>
  match i with
  | 18 => PyValue.str "Gadget"
  | 19 => PyValue.str "20"
  | 20 => PyValue.str "1"
  | 26 => PyValue.str "G1"
  | _ => PyValue.none

/-- The two-row example sheet (header plus rows A and B). -/
def sheetC2 : List Row := [rowHeader, rowA, rowB]

/-- Widget line as parsed from row A. -/
def lineW : LineItem :=
  { product_name := .rstr "Widget", unit_price := .rstr "10"
    quantity := .rstr "2", uom := .bfalse, product_code := .bfalse
    model := .bfalse, sku_id := .bfalse, odoo_product_ref := .rstr "W1" }

/-- Gadget line as parsed from row B. -/
def lineG : LineItem :=
  { product_name := .rstr "Gadget", unit_price := .rstr "20"
    quantity := .rstr "1", uom := .bfalse, product_code := .bfalse
    model := .bfalse, sku_id := .bfalse, odoo_product_ref := .rstr "G1" }

/-- The single aggregate the grouper builds from the example sheet. -/
def aggO1 : OrderAggregate :=
  { order_no := .rstr "O1", seller_company := .rstr "SellerCo"
    seller_name := .rstr "Seller", total_price := .rstr "40"
    shipping_fee := .rstr "4", discount := .bfalse, actual_payment := .bfalse
    order_status := .bfalse, create_date := .bfalse, payment_date := .bfalse
    tracking_no := .bfalse, logistics_company := .bfalse
    buyer_note := .bfalse, lines := [lineW, lineG] }

/-- Host collaborators for the worked example: the supplier exists, both
product references resolve, creation succeeds. -/
def envC2 : Env :=
  { findSupplier := fun s =>
      if s == "SellerCo" then some { id := 7, name := "SellerCo" }
      else Option.none
    createPartner := fun _ => .error "partner creation unused"
    findProduct := fun s =>
      if s == "W1" then some 101
      else if s == "G1" then some 102 else Option.none
    createPO := fun _ => .ok { id := 1, name := "P00001" }
    now := 0 }

theorem parse_sheetC2 : parse_excel_data sheetC2 = [aggO1] := by decide

theorem float_str10 : floatIfTruthy (CellResult.rstr "10") = .ok 10 := by
  rw [floatIfTruthy_int_str
    (show pyFloatParts "10" = some (false, 10, 0, 0) by decide) (by decide)]
  norm_num

theorem float_str2 : floatIfTruthy (CellResult.rstr "2") = .ok 2 := by
  rw [floatIfTruthy_int_str
    (show pyFloatParts "2" = some (false, 2, 0, 0) by decide) (by decide)]
  norm_num

theorem float_str20 : floatIfTruthy (CellResult.rstr "20") = .ok 20 := by
  rw [floatIfTruthy_int_str
    (show pyFloatParts "20" = some (false, 20, 0, 0) by decide) (by decide)]
  norm_num

theorem float_str1 : floatIfTruthy (CellResult.rstr "1") = .ok 1 := by
  rw [floatIfTruthy_int_str
    (show pyFloatParts "1" = some (false, 1, 0, 0) by decide) (by decide)]
  norm_num

theorem float_str4 : floatIfTruthy (CellResult.rstr "4") = .ok 4 := by
  rw [floatIfTruthy_int_str
    (show pyFloatParts "4" = some (false, 4, 0, 0) by decide) (by decide)]
  norm_num

theorem totC2 : order_total_amount 0 aggO1.lines = .ok 40 := by
  simp only [aggO1, lineW, lineG, order_total_amount, float_str10, float_str2,
    float_str20, float_str1, exceptBind_ok, Except.ok.injEq]
  norm_num

theorem buildC2 : build_order_lines envC2.findProduct 40 4 aggO1.lines =
    .ok ([{ product_id := 101, name := .rstr "Widget", product_qty := 2
            price_unit := 11 },
          { product_id := 102, name := .rstr "Gadget", product_qty := 1
            price_unit := 22 }], []) := by
  simp only [aggO1, lineW, lineG, build_order_lines,
    find_product_by_reference, truthyCell, envC2, strOfCell, float_str10,
    float_str2, float_str20, float_str1, exceptBind_ok]
  norm_num [show ("W1" : String) ≠ "" by decide,
    show ("G1" : String) ≠ "" by decide,
    show ("G1" : String) ≠ "W1" by decide, allocated_price, Option.getD]

theorem matC2 : materialize_order envC2 1 aggO1 =
    .ok (.success (CellResult.rstr "O1") 1 "P00001" "SellerCo" 44) := by
  have hpartner : get_or_create_partner envC2.findSupplier envC2.createPartner
      aggO1.seller_company aggO1.seller_name =
        .ok { id := 7, name := "SellerCo" } := rfl
  have hship : floatIfTruthy aggO1.shipping_fee = .ok 4 := float_str4
  simp only [materialize_order, hpartner, exceptBind_ok, hship, totC2, buildC2]
  simp only [List.isEmpty_cons, Bool.false_eq_true, if_false, List.isEmpty_nil,
    if_true]
  have hpo : ∀ v, envC2.createPO v = .ok { id := 1, name := "P00001" } :=
    fun _ => rfl
  simp only [hpo, exceptBind_ok, Except.ok.injEq, Outcome.success.injEq]
  norm_num [sum_lines, aggO1]

/-- C2: the end-to-end example of the specification fails on the code.
Grouping and the pre-shipping total T = 40 are as claimed, but the Widget
allocation is (20/40)·4 = 2 yuan of shipping for the line, i.e. 1 per unit
over quantity 2 — not 0.5 — so the allocated Widget price is 11, and the
Success total is 11·2 + 22·1 = 44 = T + S, not 43. -/
theorem end_to_end_example_counterexample :
    parse_excel_data sheetC2 = [aggO1] ∧
    create_purchase_orders envC2 1 (parse_excel_data sheetC2) =
      [Outcome.success (CellResult.rstr "O1") 1 "P00001" "SellerCo" 44] ∧
    allocated_price 40 4 10 2 = 11 ∧ (11 : ℚ) ≠ 21 / 2 ∧ (44 : ℚ) ≠ 43 := by
  refine ⟨parse_sheetC2, ?_, ?_, by norm_num, by norm_num⟩
  · rw [parse_sheetC2]
    simp [create_purchase_orders, matC2]
  · norm_num [allocated_price]

/-- C2 amended: on the two-row example the pipeline groups both rows into
the single aggregate O1 with pre-shipping total 40, allocates 1 per unit of
shipping to Widget (price 11) and 2 per unit to Gadget (price 22), and
produces a Success outcome with total 11·2 + 22·1 = 44. -/
theorem end_to_end_example_amended :
    parse_excel_data sheetC2 = [aggO1] ∧
    order_total_amount 0 aggO1.lines = .ok 40 ∧
    build_order_lines envC2.findProduct 40 4 aggO1.lines =
      .ok ([{ product_id := 101, name := .rstr "Widget", product_qty := 2
              price_unit := 11 },
            { product_id := 102, name := .rstr "Gadget", product_qty := 1
              price_unit := 22 }], []) ∧
    create_purchase_orders envC2 1 (parse_excel_data sheetC2) =
      [Outcome.success (CellResult.rstr "O1") 1 "P00001" "SellerCo" 44] := by
  refine ⟨parse_sheetC2, totC2, buildC2, ?_⟩
  rw [parse_sheetC2]
  simp [create_purchase_orders, matC2]

/-- Catalog for the under-allocation counterexample: only P1 resolves. -/
def cat9 : String → Option Nat := fun s =>
  if s == "P1" then some 1 else Option.none

/-- Resolved line: unit price 20, quantity 1. -/
def line9A : LineItem :=
  { product_name := .rstr "A", unit_price := .rstr "20"
    quantity := .rstr "1", uom := .bfalse, product_code := .bfalse
    model := .bfalse, sku_id := .bfalse, odoo_product_ref := .rstr "P1" }

/-- Skipped line with positive subtotal 5. -/
def line9B : LineItem :=
  { product_name := .rstr "B", unit_price := .rstr "5"
    quantity := .rstr "1", uom := .bfalse, product_code := .bfalse
    model := .bfalse, sku_id := .bfalse, odoo_product_ref := .rstr "X" }

/-- Skipped line with negative subtotal -10. -/
def line9C : LineItem :=
  { product_name := .rstr "C", unit_price := .rstr "-10"
    quantity := .rstr "1", uom := .bfalse, product_code := .bfalse
    model := .bfalse, sku_id := .bfalse, odoo_product_ref := .bfalse }

theorem float_str5 : floatIfTruthy (CellResult.rstr "5") = .ok 5 := by
  rw [floatIfTruthy_int_str
    (show pyFloatParts "5" = some (false, 5, 0, 0) by decide) (by decide)]
  norm_num

theorem float_strm10 : floatIfTruthy (CellResult.rstr "-10") = .ok (-10) := by
  rw [floatIfTruthy_neg_int_str
    (show pyFloatParts "-10" = some (true, 10, 0, 0) by decide) (by decide)]
  norm_num

/-- C9: the unconditional strict inequality of the claim fails on the code.
The denominator T = 15 is indeed computed over every parsed line; line B is
skipped and has positive subtotal 5·1 > 0; but because the skipped line C
carries subtotal -10, the included subtotal 20 exceeds T, and the shipping
added to the created line is 24 - 20 = 4, which is NOT less than S = 3. -/
theorem tot9 : order_total_amount 0 [line9A, line9B, line9C] = .ok 15 := by
  simp only [order_total_amount, line9A, line9B, line9C, float_str20,
    float_str5, float_strm10, float_str1, exceptBind_ok, Except.ok.injEq]
  norm_num

theorem build9 : build_order_lines cat9 15 3 [line9A, line9B, line9C] =
    .ok ([{ product_id := 1, name := .rstr "A", product_qty := 1
            price_unit := 24 }],
         [{ product_name := .rstr "B", odoo_ref := .rstr "X"
            reason := "在Odoo系统中未找到Internal Reference为\"X\"的产品，请先创建该产品或检查编号" },
          { product_name := .rstr "C", odoo_ref := .bfalse
            reason := "Excel中Odoo商品编号(AA列)为空，需要手动关联产品" }]) := by
  simp only [build_order_lines, line9A, line9B, line9C,
    find_product_by_reference, truthyCell, cat9, strOfCell, float_str20,
    float_str5, float_strm10, float_str1, exceptBind_ok]
  norm_num [show ("P1" : String) ≠ "" by decide,
    show ("X" : String) ≠ "" by decide,
    show ("X" : String) ≠ "P1" by decide, allocated_price, Option.getD]
  decide

/-- C9: the unconditional strict inequality of the claim fails on the code.
The denominator T = 15 is indeed computed over every parsed line; line B is
skipped and has positive subtotal 5·1 > 0; but because the skipped line C
carries subtotal -10, the included subtotal 20 exceeds T, and the shipping
added to the created line is 24 - 20 = 4, which is NOT less than S = 3. -/
theorem shipping_under_allocation_counterexample :
    order_total_amount 0 [line9A, line9B, line9C] = .ok 15 ∧
    build_order_lines cat9 15 3 [line9A, line9B, line9C] =
      .ok ([{ product_id := 1, name := .rstr "A", product_qty := 1
              price_unit := 24 }],
           [{ product_name := .rstr "B", odoo_ref := .rstr "X"
              reason := "在Odoo系统中未找到Internal Reference为\"X\"的产品，请先创建该产品或检查编号" },
            { product_name := .rstr "C", odoo_ref := .bfalse
              reason := "Excel中Odoo商品编号(AA列)为空，需要手动关联产品" }]) ∧
    (find_product_by_reference cat9 line9B).found = false ∧
    (5 : ℚ) * 1 > 0 ∧
    sum_lines [{ product_id := 1, name := CellResult.rstr "A"
                 product_qty := 1, price_unit := 24 }] - 20 = 4 ∧
    ¬ ((4 : ℚ) < 3) :=
  ⟨tot9, build9, rfl, by norm_num, by norm_num [sum_lines], by norm_num⟩

/-- C9 witness: the amended proration theorem applied to the concrete
three-line order with T = 15 and S = 3. -/
theorem shipping_prorated_over_all_parsed_lines_witness :
    order_total_amount 0 [line9A, line9B, line9C] = .ok 15 ∧
    sum_lines [{ product_id := 1, name := CellResult.rstr "A"
                 product_qty := 1, price_unit := 24 }] =
      inclSum cat9 ([line9A, line9B, line9C].zip
        [((20 : ℚ), (1 : ℚ)), (5, 1), (-10, 1)]) +
        3 * inclSum cat9 ([line9A, line9B, line9C].zip
          [((20 : ℚ), (1 : ℚ)), (5, 1), (-10, 1)]) / 15 ∧
    (inclSum cat9 ([line9A, line9B, line9C].zip
        [((20 : ℚ), (1 : ℚ)), (5, 1), (-10, 1)]) < 15 →
      sum_lines [{ product_id := 1, name := CellResult.rstr "A"
                   product_qty := 1, price_unit := 24 }] -
        inclSum cat9 ([line9A, line9B, line9C].zip
          [((20 : ℚ), (1 : ℚ)), (5, 1), (-10, 1)]) < 3) :=
  shipping_prorated_over_all_parsed_lines cat9 3 15 [line9A, line9B, line9C]
    [((20 : ℚ), (1 : ℚ)), (5, 1), (-10, 1)]
    [{ product_id := 1, name := CellResult.rstr "A"
       product_qty := 1, price_unit := 24 }]
    [{ product_name := .rstr "B", odoo_ref := .rstr "X"
       reason := "在Odoo系统中未找到Internal Reference为\"X\"的产品，请先创建该产品或检查编号" },
     { product_name := .rstr "C", odoo_ref := .bfalse
       reason := "Excel中Odoo商品编号(AA列)为空，需要手动关联产品" }]
    (List.Forall₂.cons ⟨⟨float_str20, float_str1⟩, by norm_num⟩
      (List.Forall₂.cons ⟨⟨float_str5, float_str1⟩, by norm_num⟩
        (List.Forall₂.cons ⟨⟨float_strm10, float_str1⟩, by norm_num⟩
          List.Forall₂.nil)))
    (by norm_num [sumPairs]) (by norm_num) (by norm_num) build9

/-- Host collaborators for the conservation witness: no supplier matches,
creation succeeds, the single product reference resolves. -/
def envW1 : Env :=
  { findSupplier := fun _ => Option.none
    createPartner := fun _ => .ok { id := 5, name := "NewSupplier" }
    findProduct := fun s => if s == "A" then some 11 else Option.none
    createPO := fun _ => .ok { id := 3, name := "P00003" }
    now := 0 }

/-- The single line of the conservation witness. -/
def lineC1 : LineItem :=
  { product_name := .rstr "Prod", unit_price := .rstr "10"
    quantity := .rstr "2", uom := .bfalse, product_code := .bfalse
    model := .bfalse, sku_id := .bfalse, odoo_product_ref := .rstr "A" }

/-- The order aggregate of the conservation witness: shipping fee 4, one
resolved line 10 x 2. -/
def odC1 : OrderAggregate :=
  { order_no := .rstr "O9", seller_company := .bfalse, seller_name := .bfalse
    total_price := .bfalse, shipping_fee := .rstr "4", discount := .bfalse
    actual_payment := .bfalse, order_status := .bfalse, create_date := .bfalse
    payment_date := .bfalse, tracking_no := .bfalse
    logistics_company := .bfalse, buyer_note := .bfalse, lines := [lineC1] }

/-- C1 witness: the conservation theorem applied to the concrete one-line
order; the created total is the pre-shipping total 20 plus the fee 4. -/
theorem shipping_fee_conservation_witness :
    materialize_order envW1 1 odC1 =
      .ok (.success (CellResult.rstr "O9") 3 "P00003" "NewSupplier"
        (sumPairs [((10 : ℚ), (2 : ℚ))] + 4)) :=
  shipping_fee_conservation envW1 1 odC1 [((10 : ℚ), (2 : ℚ))] 4
    { id := 5, name := "NewSupplier" } { id := 3, name := "P00003" }
    rfl float_str4 (by norm_num)
    (List.Forall₂.cons ⟨⟨float_str10, float_str2⟩, by norm_num, rfl⟩
      List.Forall₂.nil)
    (by norm_num [sumPairs]) (fun _ => rfl)

/-- Catalog for the skip-and-report witness: only code A resolves. -/
def catalogC4 : String → Option Nat := fun s =>
  if s == "A" then some 1 else Option.none

/-- A line whose reference resolves. -/
def l1C4 : LineItem :=
  { product_name := .rstr "P1", unit_price := .bfalse, quantity := .bfalse
    uom := .bfalse, product_code := .bfalse, model := .bfalse
    sku_id := .bfalse, odoo_product_ref := .rstr "A" }

/-- A line with a blank reference. -/
def l2C4 : LineItem :=
  { product_name := .rstr "P2", unit_price := .bfalse, quantity := .bfalse
    uom := .bfalse, product_code := .bfalse, model := .bfalse
    sku_id := .bfalse, odoo_product_ref := .bfalse }

/-- A line whose reference matches no catalog entry. -/
def l3C4 : LineItem :=
  { product_name := .rstr "P3", unit_price := .bfalse, quantity := .bfalse
    uom := .bfalse, product_code := .bfalse, model := .bfalse
    sku_id := .bfalse, odoo_product_ref := .rstr "B" }

/-- C4 witness: on a concrete three-line build, the blank-reference and
unmatched-reference lines each yield NotFound with the recorded reason, the
emitted lines are exactly the one resolved line, and the skipped report is
exactly the two unresolved lines. -/
theorem strict_resolution_skip_and_report_witness :
    find_product_by_reference catalogC4 l2C4 =
      { found := false, productId := Option.none
        message := "Excel中Odoo商品编号(AA列)为空，需要手动关联产品" } ∧
    find_product_by_reference catalogC4 l3C4 =
      { found := false, productId := Option.none
        message := "在Odoo系统中未找到Internal Reference为\"" ++ "B" ++
          "\"的产品，请先创建该产品或检查编号" } ∧
    ([{ product_id := 1, name := CellResult.rstr "P1", product_qty := 0
        price_unit := 0 }] : List LineVals).map (fun v => v.name) =
      (([l1C4, l2C4, l3C4].filter fun l =>
        (find_product_by_reference catalogC4 l).found).map
          fun l => l.product_name) ∧
    ([{ product_name := CellResult.rstr "P2", odoo_ref := CellResult.bfalse
        reason := "Excel中Odoo商品编号(AA列)为空，需要手动关联产品" },
      { product_name := CellResult.rstr "P3"
        odoo_ref := CellResult.rstr "B"
        reason := "在Odoo系统中未找到Internal Reference为\"B\"的产品，请先创建该产品或检查编号" }] :
      List SkippedLine) = skippedEntries catalogC4 [l1C4, l2C4, l3C4] := by
  have h := strict_resolution_skip_and_report catalogC4 1 0 [l1C4, l2C4, l3C4]
    [{ product_id := 1, name := CellResult.rstr "P1", product_qty := 0
       price_unit := 0 }]
    [{ product_name := CellResult.rstr "P2", odoo_ref := CellResult.bfalse
       reason := "Excel中Odoo商品编号(AA列)为空，需要手动关联产品" },
     { product_name := CellResult.rstr "P3", odoo_ref := CellResult.rstr "B"
       reason := "在Odoo系统中未找到Internal Reference为\"B\"的产品，请先创建该产品或检查编号" }]
    rfl
  exact ⟨h.1 l2C4 rfl, h.2.1 l3C4 "B" rfl (by decide) rfl, h.2.2.1, h.2.2.2⟩

/-- Host collaborators for the skipped-order witness: nothing resolves and
order creation would fail loudly if it were ever called. -/
def env5 : Env :=
  { findSupplier := fun _ => Option.none
    createPartner := fun _ => .ok { id := 9, name := "S" }
    findProduct := fun _ => Option.none
    createPO := fun _ => .error "create must not be reached"
    now := 0 }

/-- The single unresolvable line of the skipped-order witness. -/
def l5 : LineItem :=
  { product_name := .rstr "P", unit_price := .bfalse, quantity := .bfalse
    uom := .bfalse, product_code := .bfalse, model := .bfalse
    sku_id := .bfalse, odoo_product_ref := .bfalse }

/-- The aggregate of the skipped-order witness: its only line is skipped. -/
def od5 : OrderAggregate :=
  { order_no := .rstr "O5", seller_company := .bfalse, seller_name := .bfalse
    total_price := .bfalse, shipping_fee := .bfalse, discount := .bfalse
    actual_payment := .bfalse, order_status := .bfalse, create_date := .bfalse
    payment_date := .bfalse, tracking_no := .bfalse
    logistics_company := .bfalse, buyer_note := .bfalse, lines := [l5] }

/-- The skipped-line report entry produced for the witness line. -/
def sk5 : SkippedLine :=
  { product_name := .rstr "P", odoo_ref := .bfalse
    reason := "Excel中Odoo商品编号(AA列)为空，需要手动关联产品" }

/-- C5 witness: the skipped-order theorem applied to the concrete aggregate
whose only line lacks a reference, with a create function that errors — the
outcome is Skipped regardless, and the run of one aggregate reports it in
place. -/
theorem skipped_order_no_creation_witness :
    materialize_order { env5 with createPO := fun _ => Except.error "boom" }
        1 od5 =
      .ok (.skipped od5.order_no
        ("没有有效的订单行" ++
          (if ([sk5] : List SkippedLine).isEmpty then ""
           else "，" ++ toString ([sk5] : List SkippedLine).length ++
             "个产品缺少Odoo商品编号")) [sk5]) ∧
    create_purchase_orders env5 1 ([] ++ od5 :: []) =
      create_purchase_orders env5 1 [] ++
        Outcome.skipped od5.order_no
          ("没有有效的订单行" ++
            (if ([sk5] : List SkippedLine).isEmpty then ""
             else "，" ++ toString ([sk5] : List SkippedLine).length ++
               "个产品缺少Odoo商品编号")) [sk5] ::
          create_purchase_orders env5 1 [] := by
  have h := skipped_order_no_creation env5 1 od5 { id := 9, name := "S" } 0 0
    [sk5] [] []
    rfl rfl (by norm_num [od5, l5, order_total_amount, floatIfTruthy,
      exceptBind_ok]) rfl
  exact ⟨h.1 (fun _ => Except.error "boom"), h.2⟩

/-- Host collaborators for the failure-isolation witness: supplier creation
raises. -/
def envFail : Env :=
  { findSupplier := fun _ => Option.none
    createPartner := fun _ => .error "boom"
    findProduct := fun _ => Option.none
    createPO := fun _ => .error "nope"
    now := 0 }

/-- An aggregate whose materialization raises at the supplier step. -/
def odF : OrderAggregate :=
  { order_no := .rstr "F1", seller_company := .bfalse, seller_name := .bfalse
    total_price := .bfalse, shipping_fee := .bfalse, discount := .bfalse
    actual_payment := .bfalse, order_status := .bfalse, create_date := .bfalse
    payment_date := .bfalse, tracking_no := .bfalse
    logistics_company := .bfalse, buyer_note := .bfalse, lines := [] }

/-- A second aggregate following the failing one. -/
def odF2 : OrderAggregate :=
  { order_no := .rstr "F2", seller_company := .bfalse, seller_name := .bfalse
    total_price := .bfalse, shipping_fee := .bfalse, discount := .bfalse
    actual_payment := .bfalse, order_status := .bfalse, create_date := .bfalse
    payment_date := .bfalse, tracking_no := .bfalse
    logistics_company := .bfalse, buyer_note := .bfalse, lines := [] }

/-- C6 witness: the isolation theorem applied to a concrete run in which
the first aggregate raises at supplier creation; the later aggregate is
still processed. -/
theorem per_order_failure_isolation_witness :
    create_purchase_orders envFail 1 ([] ++ odF :: [odF2]) =
      create_purchase_orders envFail 1 [] ++
        Outcome.failed odF.order_no "boom" ::
          create_purchase_orders envFail 1 [odF2] :=
  per_order_failure_isolation envFail 1 odF [] [odF2] "boom" rfl

/-- C3 witness: the amended reader contract at concrete cells. -/
theorem cell_reader_contract_amended_witness :
    get_cell_value (PyValue.str " a ") =
      get_cell_value_amended (PyValue.str " a ") ∧
    get_cell_value (PyValue.int 7) = get_cell_value_amended (PyValue.int 7) :=
  ⟨cell_reader_contract_amended (PyValue.str " a "),
   cell_reader_contract_amended (PyValue.int 7)⟩
